import Mathlib

/-!
Shallow embedding of the WebLLM session-lifecycle layer of `react-webllm`
(`src/provider.tsx`, `src/types.ts`).

The inference engine (`@mlc-ai/web-llm`) is an external collaborator: its
behaviour during one call is modelled as explicit oracle data (the progress
events it reports, whether session creation resolves or rejects, what a
completion resolves to, ...).  The React state cells (`engine`, `initialized`,
`supported`, `initProgress`, `systemInfo`) are gathered into one explicit
`ManagerState` record, and each operation of the provider becomes a pure
function from the oracle data and the current state to an outcome record that
carries the returned value, the successor state, whether the engine entry
point was invoked, and (for initialization) the sequence of `InitProgress`
values that were published during the attempt.

JavaScript `throw` values are modelled as `Option String`: `some m` is an
`Error` whose `.message` is `m`; `none` is a thrown non-`Error` value (the
source maps the latter to the literal fallbacks `"Unknown error"` /
`"Unknown error generating text"`).  `undefined`/`null` fields are `Option`.
The float `progress` is modelled as `ℚ`: the source never computes with it, it
only copies and publishes it, so an exact numeric type is faithful.
-/

/-- Status alternatives of `InitProgress` from `src/types.ts`:
`'initializing' | 'success' | 'error' | 'not-started'`. -/
inductive InitStatus
  | notStarted
  | initializing
  | success
  | error
deriving DecidableEq, Repr

/-- Record `WebLLMInitProgress` from `src/types.ts`: progress, text, status. -/
structure WebLLMInitProgress where
  progress : ℚ
  text : String
  status : InitStatus
deriving DecidableEq, Repr

/-- Closed role set of `ChatMessage` from `src/types.ts`. -/
inductive Role
  | user
  | assistant
  | system
  | function
deriving DecidableEq, Repr

/-- Record `ChatMessage` from `src/types.ts`: role and content. -/
structure ChatMessage where
  role : Role
  content : String
deriving DecidableEq, Repr

/-- Record `GenerationOptions` from `src/types.ts`: all six fields optional. -/
structure GenerationOptions where
  temperature : Option ℚ := none
  max_tokens : Option Int := none
  top_p : Option ℚ := none
  top_k : Option Int := none
  repetition_penalty : Option ℚ := none
  stop : Option (List String) := none
deriving DecidableEq, Repr

/-- Status of a `GenerationResponse` (`'success' | 'error'`). -/
inductive GenStatus
  | success
  | error
deriving DecidableEq, Repr

/-- Record `GenerationResponse` from `src/types.ts`: text, status, optional error.
A missing `error` key is `none`. -/
structure GenerationResponse where
  text : String
  status : GenStatus
  error : Option String := none
deriving DecidableEq, Repr

/-- Record `SystemInfo` from `src/types.ts`. -/
structure SystemInfo where
  supported : Bool
  webGPUAvailable : Bool
  webGLAvailable : Bool
  sharedArrayBufferAvailable : Bool
  gpuVendor : Option String
deriving DecidableEq, Repr

/-- The React state cells of `LLMProvider` (`provider.tsx` lines 35-51),
gathered into one record.  `engine` is `true` iff a session handle is stored
(`engine !== null`).  `everCreated` is a ghost history flag, set exactly when
the engine's session creation succeeds; it appears in no operation's control
flow and exists only to state the `gpuVendor` provenance invariant. -/
structure ManagerState where
  engine : Bool
  initialized : Bool
  supported : Bool
  initProgress : WebLLMInitProgress
  systemInfo : SystemInfo
  everCreated : Bool
deriving DecidableEq, Repr

/-- The initial provider state (`useState` initializers, lines 35-51). -/
def initialState : ManagerState :=
  { engine := false
    initialized := false
    supported := false
    initProgress := { progress := 0, text := "Not initialized", status := InitStatus.notStarted }
    systemInfo :=
      { supported := false
        webGPUAvailable := false
        webGLAvailable := false
        sharedArrayBufferAvailable := false
        gpuVendor := none }
    everCreated := false }

/-- Host-environment facts consulted by `checkWebLLMSupport`.
`probeThrows` models the `try` block throwing (e.g. no `document`/`navigator`);
every realistic throw site is before the first state write inside the `try`,
so the catch path sees the pre-probe state. -/
structure Env where
  wasmAvailable : Bool
  hasWebGPU : Bool
  hasWebGL : Bool
  sharedArrayBufferAvailable : Bool
  probeThrows : Bool
deriving DecidableEq, Repr

/-- One engine progress event (`webllm.InitProgressReport`): the
`(progress, text)` pair handed to the `initProgressCallback`. -/
structure ProgressReport where
  progress : ℚ
  text : String
deriving DecidableEq, Repr

/-- Result of the engine's session-creation entry point
(`webllm.CreateMLCEngine`): resolves, or rejects with a thrown value. -/
inductive CreateResult
  | ok
  | thrown (err : Option String)
deriving DecidableEq, Repr

/-- Oracle for one `CreateMLCEngine` call: the progress events it reports (in
order, before settling), how it settles, and how the follow-up
`getGPUVendor()` call behaves (`some v`: resolves with `v`; `none`: throws). -/
structure EngineBehavior where
  events : List ProgressReport
  createResult : CreateResult
  vendorResult : Option String
deriving DecidableEq, Repr

/-- Result of the engine's completion entry point
(`engine.chat.completions.create`): resolves with the list of
`choices[i].message.content` values (`none` = null/undefined content), or
rejects with a thrown value. -/
inductive CompletionResult
  | resolves (choices : List (Option String))
  | thrown (err : Option String)
deriving DecidableEq, Repr

/-- Oracle for one `generate` call. -/
structure GenBehavior where
  completion : CompletionResult
deriving DecidableEq, Repr

/-- Oracle for one `resetChat` call: how `engine.resetChat()` settles. -/
structure ResetBehavior where
  resetResult : CreateResult
deriving DecidableEq, Repr

/-- Embedding of `checkWebLLMSupport` (`provider.tsx` lines 53-88).  Returns the boolean
verdict and the successor state.  The WASM gate fires before anything else;
the `catch` branch (like the WASM gate) only clears the two `supported`
flags, preserving the rest of the previous `systemInfo`; the success path
overwrites the whole `systemInfo`, with `gpuVendor := none`. -/
def checkWebLLMSupport (env : Env) (s : ManagerState) : Bool × ManagerState :=
  if env.wasmAvailable = false then
    (false, { s with supported := false
                     systemInfo := { s.systemInfo with supported := false } })
  else if env.probeThrows then
    (false, { s with supported := false
                     systemInfo := { s.systemInfo with supported := false } })
  else
    let isSupported := env.hasWebGL || env.hasWebGPU
    (isSupported,
      { s with supported := isSupported
               systemInfo :=
                 { supported := isSupported
                   webGPUAvailable := env.hasWebGPU
                   webGLAvailable := env.hasWebGL
                   sharedArrayBufferAvailable := env.sharedArrayBufferAvailable
                   gpuVendor := none } })

/-- Outcome of one `initialize` call: returned boolean, successor state,
whether `CreateMLCEngine` was invoked, and the ordered list of
`WebLLMInitProgress` values published (`setInitProgress`) during the call. -/
structure InitOutcome where
  ret : Bool
  state : ManagerState
  engineCalled : Bool
  observed : List WebLLMInitProgress
deriving DecidableEq, Repr

/-- The `InitProgress` published when support is missing (lines 98-102). -/
def unsupportedProgress : WebLLMInitProgress :=
  { progress := 0, text := "WebLLM is not supported in this browser", status := InitStatus.error }

/-- The `InitProgress` published before the engine call (lines 108-112). -/
def startingProgress : WebLLMInitProgress :=
  { progress := 0, text := "Initializing WebLLM...", status := InitStatus.initializing }

/-- The `InitProgress` published on success (lines 130-134). -/
def successProgress : WebLLMInitProgress :=
  { progress := 1, text := "WebLLM initialized successfully", status := InitStatus.success }

/-- The `InitProgress` published on failure (lines 146-150): note the source
sets `progress: 0`, and builds the text from the thrown value. -/
def failureProgress (err : Option String) : WebLLMInitProgress :=
  { progress := 0
    text := "Failed to initialize WebLLM: " ++ err.getD "Unknown error"
    status := InitStatus.error }

/-- The `initProgressCallback` relay (lines 115-121): each engine report is
published verbatim with status `initializing`. -/
def relayEvents : List ProgressReport → List WebLLMInitProgress
  | [] => []
  | r :: rs =>
      { progress := r.progress, text := r.text, status := InitStatus.initializing }
        :: relayEvents rs

/-- Embedding of `initialize` (`provider.tsx` lines 90-155).  Control flow of the source:
already-ready guard; support gate (probe only when `supported` is still
false); publish `startingProgress`; call `CreateMLCEngine` (its progress
events are relayed verbatim); on resolution store the engine, set
`initialized`, publish `successProgress`, then best-effort `getGPUVendor`
(failure swallowed); on rejection publish `failureProgress` and leave
`engine`/`initialized` untouched. -/
def initializeModel (env : Env) (beh : EngineBehavior) (s : ManagerState) : InitOutcome :=
  if s.initialized && s.engine then
    { ret := true, state := s, engineCalled := false, observed := [] }
  else
    let probe := if s.supported then (true, s) else checkWebLLMSupport env s
    if probe.1 = false then
      { ret := false
        state := { probe.2 with initProgress := unsupportedProgress }
        engineCalled := false
        observed := [unsupportedProgress] }
    else
      match beh.createResult with
      | CreateResult.ok =>
          let s3 := { probe.2 with engine := true
                                   initialized := true
                                   initProgress := successProgress
                                   everCreated := true }
          let s4 :=
            match beh.vendorResult with
            | some v => { s3 with systemInfo := { s3.systemInfo with gpuVendor := some v } }
            | none => s3
          { ret := true
            state := s4
            engineCalled := true
            observed := startingProgress :: (relayEvents beh.events ++ [successProgress]) }
      | CreateResult.thrown e =>
          { ret := false
            state := { probe.2 with initProgress := failureProgress e }
            engineCalled := true
            observed := startingProgress :: (relayEvents beh.events ++ [failureProgress e]) }

/-- Outcome of one `generate` call.  `generate` never writes any state cell,
so `state` is the (unchanged) manager state after the call; `request` is the
argument object forwarded to `engine.chat.completions.create` (`none` when
the engine was never reached). -/
structure ChatRequest where
  messages : List ChatMessage
  temperature : ℚ
  max_tokens : Option Int
  top_p : Option ℚ
  stop : Option (List String)
deriving DecidableEq, Repr

structure GenOutcome where
  resp : GenerationResponse
  state : ManagerState
  engineCalled : Bool
  request : Option ChatRequest
deriving DecidableEq, Repr

/-- Embedding of `generate` (`provider.tsx` lines 171-215).  The request object literal of
the source (lines 190-196) carries exactly `messages`, `temperature`
(defaulted to 0.7 via `??`), `max_tokens`, `top_p`, `stop` — it has no
`top_k` or `repetition_penalty` key, so `ChatRequest` has none.  An empty
`choices` array makes `choices[0].message` throw a `TypeError` inside the
`try`, which the `catch` turns into an error response like any other thrown
`Error`. -/
def generate (beh : GenBehavior) (s : ManagerState) (prompt : String)
    (options : GenerationOptions) : GenOutcome :=
  if !(s.engine && s.initialized) then
    { resp := { text := ""
                status := GenStatus.error
                error := some "WebLLM not initialized. Call initialize() first." }
      state := s, engineCalled := false, request := none }
  else
    let req : ChatRequest :=
      { messages :=
          [ { role := Role.system, content := "You are a helpful AI assistant." }
          , { role := Role.user, content := prompt } ]
        temperature := options.temperature.getD (7 / 10)
        max_tokens := options.max_tokens
        top_p := options.top_p
        stop := options.stop }
    match beh.completion with
    | CompletionResult.resolves choices =>
        match choices with
        | [] =>
            { resp := { text := ""
                        status := GenStatus.error
                        error := some "Cannot read properties of undefined (reading 'message')" }
              state := s, engineCalled := true, request := some req }
        | c :: _ =>
            { resp := { text := c.getD "", status := GenStatus.success, error := none }
              state := s, engineCalled := true, request := some req }
    | CompletionResult.thrown e =>
        { resp := { text := ""
                    status := GenStatus.error
                    error := some (e.getD "Unknown error generating text") }
          state := s, engineCalled := true, request := some req }

/-- Outcome of one `resetChat` call. -/
structure ResetOutcome where
  state : ManagerState
  engineCalled : Bool
deriving DecidableEq, Repr

/-- Embedding of `resetChat` (`provider.tsx` lines 217-225): early return when no engine is
stored; otherwise `engine.resetChat()` is awaited and any rejection is caught
and only logged.  No state cell is ever written. -/
def resetChat (beh : ResetBehavior) (s : ManagerState) : ResetOutcome :=
  if !s.engine then
    { state := s, engineCalled := false }
  else
    match beh.resetResult with
    | CreateResult.ok => { state := s, engineCalled := true }
    | CreateResult.thrown _ => { state := s, engineCalled := true }

/-- Boolean check that a list of rationals is sorted non-decreasingly. -/
def nondecreasing : List ℚ → Bool
  | a :: b :: rest => decide (a ≤ b) && nondecreasing (b :: rest)
  | _ => true

/-- Boolean check of the spec's monotonicity contract on a published
`InitProgress` sequence: every adjacent pair whose two statuses are both
`initializing` has non-decreasing `progress`. -/
def monotoneWhileInitializing : List WebLLMInitProgress → Bool
  | p :: q :: rest =>
      (if p.status = InitStatus.initializing ∧ q.status = InitStatus.initializing then
        decide (p.progress ≤ q.progress)
      else true)
        && monotoneWhileInitializing (q :: rest)
  | _ => true

/-- A fully capable host environment. -/
def envAll : Env :=
  { wasmAvailable := true
    hasWebGPU := true
    hasWebGL := true
    sharedArrayBufferAvailable := true
    probeThrows := false }

/-- A host environment with no WASM facility (but both graphics backends). -/
def envNoWasm : Env :=
  { envAll with wasmAvailable := false }

/-- A fresh state whose support verdict has already been evaluated true. -/
def sSupported : ManagerState :=
  { initialState with supported := true }

/-- A Ready state: a session is stored after a successful initialization. -/
def sReady : ManagerState :=
  { engine := true
    initialized := true
    supported := true
    initProgress := successProgress
    systemInfo :=
      { supported := true
        webGPUAvailable := true
        webGLAvailable := true
        sharedArrayBufferAvailable := true
        gpuVendor := none }
    everCreated := true }

/-- An engine run that reports progress 1 (its last report) and then rejects
with an `Error` whose message is "OOM". -/
def behOOM : EngineBehavior :=
  { events := [{ progress := 1, text := "loading" }]
    createResult := CreateResult.thrown (some "OOM")
    vendorResult := none }

/-- An engine run with non-decreasing progress reports that resolves. -/
def behRising : EngineBehavior :=
  { events := [{ progress := 0, text := "fetch" }, { progress := 1, text := "load" }]
    createResult := CreateResult.ok
    vendorResult := some "nvidia" }

/-- An engine run whose progress reports decrease, and that resolves. -/
def behFalling : EngineBehavior :=
  { events := [{ progress := 1, text := "a" }, { progress := 0, text := "b" }]
    createResult := CreateResult.ok
    vendorResult := none }

/-- A completion call that resolves with one non-null choice content. -/
def gbOK : GenBehavior :=
  { completion := CompletionResult.resolves [some "hello"] }

/-- A completion call that resolves with a null first choice content. -/
def gbNull : GenBehavior :=
  { completion := CompletionResult.resolves [none] }

/-- A reset call that resolves. -/
def rbOK : ResetBehavior :=
  { resetResult := CreateResult.ok }

lemma checkSupport_preserves (env : Env) (s : ManagerState) :
    (checkWebLLMSupport env s).2.engine = s.engine ∧
    (checkWebLLMSupport env s).2.initialized = s.initialized ∧
    (checkWebLLMSupport env s).2.everCreated = s.everCreated := by
  unfold checkWebLLMSupport
  split_ifs <;> simp

lemma checkSupport_inv (env : Env) (s : ManagerState)
    (h : s.systemInfo.gpuVendor ≠ none → s.everCreated = true) :
    (checkWebLLMSupport env s).2.systemInfo.gpuVendor ≠ none →
      (checkWebLLMSupport env s).2.everCreated = true := by
  unfold checkWebLLMSupport
  split_ifs <;> simp_all

lemma generate_state_eq (beh : GenBehavior) (s : ManagerState) (prompt : String)
    (opts : GenerationOptions) : (generate beh s prompt opts).state = s := by
  rcases beh with ⟨c⟩
  by_cases hg : (s.engine && s.initialized) = true
  · cases c with
    | resolves choices => cases choices <;> simp [generate, hg]
    | thrown e => simp [generate, hg]
  · simp [generate, hg]

lemma resetChat_state_eq (beh : ResetBehavior) (s : ManagerState) :
    (resetChat beh s).state = s := by
  rcases beh with ⟨r⟩
  by_cases h : s.engine <;> cases r <;> simp [resetChat, h]

/-- C3: in an environment without a WASM execution facility, `initialize()`
returns false, `InitProgress.status` becomes `error`, and the engine's
session-creation entry point is never invoked — independently of the graphics
backends (the environment's other fields are universally quantified). -/
theorem initialize_unsupported_fail_closed (env : Env) (beh : EngineBehavior)
    (s : ManagerState) (hwasm : env.wasmAvailable = false)
    (hinit : s.initialized = false) (hsup : s.supported = false) :
    (initializeModel env beh s).ret = false ∧
    (initializeModel env beh s).state.initProgress.status = InitStatus.error ∧
    (initializeModel env beh s).engineCalled = false := by
  simp [initializeModel, checkWebLLMSupport, hwasm, hinit, hsup, unsupportedProgress]

theorem initialize_unsupported_fail_closed_witness :
    envNoWasm.wasmAvailable = false ∧
    initialState.initialized = false ∧
    initialState.supported = false ∧
    ((initializeModel envNoWasm behRising initialState).ret = false ∧
      (initializeModel envNoWasm behRising initialState).state.initProgress.status =
        InitStatus.error ∧
      (initializeModel envNoWasm behRising initialState).engineCalled = false) :=
  ⟨rfl, rfl, rfl,
    initialize_unsupported_fail_closed envNoWasm behRising initialState rfl rfl rfl⟩

/-- C4: when the manager is already Ready (`initialized` true and a session
stored), `initialize()` returns true immediately, invokes no engine call,
publishes no progress, and leaves the whole state unchanged; a second
consecutive call does the same, so two calls after a successful one both
return true with no further engine call. -/
theorem initialize_idempotent_when_ready (env env2 : Env)
    (beh beh2 : EngineBehavior) (s : ManagerState)
    (h1 : s.initialized = true) (h2 : s.engine = true) :
    initializeModel env beh s =
      { ret := true, state := s, engineCalled := false, observed := [] } ∧
    initializeModel env2 beh2 (initializeModel env beh s).state =
      { ret := true, state := s, engineCalled := false, observed := [] } := by
  constructor <;> simp [initializeModel, h1, h2]

theorem initialize_idempotent_when_ready_witness :
    sReady.initialized = true ∧ sReady.engine = true ∧
    initializeModel envAll behRising sReady =
      { ret := true, state := sReady, engineCalled := false, observed := [] } ∧
    initializeModel envAll behRising (initializeModel envAll behRising sReady).state =
      { ret := true, state := sReady, engineCalled := false, observed := [] } :=
  ⟨rfl, rfl,
    (initialize_idempotent_when_ready envAll envAll behRising behRising sReady rfl rfl).1,
    (initialize_idempotent_when_ready envAll envAll behRising behRising sReady rfl rfl).2⟩

/-- C5: `generate()` with no live session (no engine stored, or `initialized`
still false) returns an error response with empty text and a non-empty error
message, and never invokes the engine's completion entry point. -/
theorem generate_without_session_errors (beh : GenBehavior) (s : ManagerState)
    (prompt : String) (opts : GenerationOptions)
    (h : s.engine = false ∨ s.initialized = false) :
    (generate beh s prompt opts).resp.text = "" ∧
    (generate beh s prompt opts).resp.status = GenStatus.error ∧
    (generate beh s prompt opts).resp.error =
      some "WebLLM not initialized. Call initialize() first." ∧
    "WebLLM not initialized. Call initialize() first." ≠ "" ∧
    (generate beh s prompt opts).engineCalled = false := by
  have hne : "WebLLM not initialized. Call initialize() first." ≠ "" := by decide
  rcases h with h | h <;> simp [generate, h, hne]

theorem generate_without_session_errors_witness :
    (initialState.engine = false ∨ initialState.initialized = false) ∧
    ((generate gbOK initialState "hi" {}).resp.text = "" ∧
      (generate gbOK initialState "hi" {}).resp.status = GenStatus.error ∧
      (generate gbOK initialState "hi" {}).resp.error =
        some "WebLLM not initialized. Call initialize() first." ∧
      "WebLLM not initialized. Call initialize() first." ≠ "" ∧
      (generate gbOK initialState "hi" {}).engineCalled = false) :=
  ⟨Or.inl rfl,
    generate_without_session_errors gbOK initialState "hi" {} (Or.inl rfl)⟩

/-- C7: `generate()` is a total function of the engine's behaviour — every
outcome, including a rejected completion, is a `GenerationResponse` that is
either success-with-no-error-field or error-with-empty-text-and-a-message
(never both), the manager state is left untouched (so an engine error does
not invalidate the session), and the engine is reached exactly when a session
exists and `initialized` is true. -/
theorem generate_total_response_shape (beh : GenBehavior) (s : ManagerState)
    (prompt : String) (opts : GenerationOptions) :
    (generate beh s prompt opts).state = s ∧
    (generate beh s prompt opts).engineCalled = (s.engine && s.initialized) ∧
    (((generate beh s prompt opts).resp.status = GenStatus.success ∧
        (generate beh s prompt opts).resp.error = none) ∨
      ((generate beh s prompt opts).resp.status = GenStatus.error ∧
        (generate beh s prompt opts).resp.text = "" ∧
        (generate beh s prompt opts).resp.error ≠ none)) := by
  refine ⟨generate_state_eq beh s prompt opts, ?_, ?_⟩ <;>
  · rcases beh with ⟨c⟩
    cases c with
    | resolves choices =>
        cases choices <;> cases he : s.engine <;> cases hi : s.initialized <;>
          simp [generate, he, hi]
    | thrown e =>
        cases he : s.engine <;> cases hi : s.initialized <;> simp [generate, he, hi]

/-- C8: `resetChat()` leaves the entire manager state (in particular
`InitProgress`) unchanged for every engine behaviour; it is a no-op that
skips the engine when no session is stored, and reaches the engine's reset
entry point exactly when one is, with any rejection swallowed. -/
theorem resetChat_silent_noop (beh : ResetBehavior) (s : ManagerState) :
    (resetChat beh s).state = s ∧
    (resetChat beh s).engineCalled = s.engine := by
  refine ⟨resetChat_state_eq beh s, ?_⟩
  rcases beh with ⟨r⟩
  by_cases h : s.engine <;> cases r <;> simp [resetChat, h]

/-- C1 counterexample: the engine reports progress 1 (its last reported
value) and then throws "OOM"; the source's failure branch publishes
`progress: 0`, so `InitProgress.progress` is NOT left at its last reported
value as the claim states. -/
theorem initialize_failure_progress_cex :
    behOOM.events.map (fun r => r.progress) = [1] ∧
    (initializeModel envAll behOOM sSupported).state.initProgress.progress = 0 ∧
    (initializeModel envAll behOOM sSupported).state.initProgress.progress ≠ 1 := by
  refine ⟨rfl, rfl, by decide⟩

/-- C1 (amended): for every `initialize()` call that reaches the engine and
in which session creation throws an `Error`, the call returns false, status
becomes `error`, the text includes the engine's error message, the progress
is reset to 0 (not kept at its last reported value), and no session is
stored (`initialized` stays false). -/
theorem initialize_failure_behavior (env : Env) (beh : EngineBehavior)
    (s : ManagerState) (msg : String)
    (hinit : s.initialized = false) (heng : s.engine = false)
    (hthrow : beh.createResult = CreateResult.thrown (some msg))
    (hcalled : (initializeModel env beh s).engineCalled = true) :
    (initializeModel env beh s).ret = false ∧
    (initializeModel env beh s).state.initProgress.status = InitStatus.error ∧
    (initializeModel env beh s).state.initProgress.text =
      "Failed to initialize WebLLM: " ++ msg ∧
    (initializeModel env beh s).state.initProgress.progress = 0 ∧
    (initializeModel env beh s).state.engine = false ∧
    (initializeModel env beh s).state.initialized = false := by
  obtain ⟨hpe, hpi, _⟩ := checkSupport_preserves env s
  by_cases hs : s.supported = true
  · simp [initializeModel, hinit, heng, hs, hthrow, failureProgress]
  · by_cases hp : (checkWebLLMSupport env s).1 = false
    · simp [initializeModel, hinit, hs, hp] at hcalled
    · simp [initializeModel, hinit, hs, hp, hthrow, failureProgress, hpe, hpi, heng]

theorem initialize_failure_behavior_witness :
    sSupported.initialized = false ∧ sSupported.engine = false ∧
    behOOM.createResult = CreateResult.thrown (some "OOM") ∧
    (initializeModel envAll behOOM sSupported).engineCalled = true ∧
    ((initializeModel envAll behOOM sSupported).ret = false ∧
      (initializeModel envAll behOOM sSupported).state.initProgress.status =
        InitStatus.error ∧
      (initializeModel envAll behOOM sSupported).state.initProgress.text =
        "Failed to initialize WebLLM: " ++ "OOM" ∧
      (initializeModel envAll behOOM sSupported).state.initProgress.progress = 0 ∧
      (initializeModel envAll behOOM sSupported).state.engine = false ∧
      (initializeModel envAll behOOM sSupported).state.initialized = false) :=
  ⟨rfl, rfl, rfl, rfl,
    initialize_failure_behavior envAll behOOM sSupported "OOM" rfl rfl rfl rfl⟩

/-- C2 counterexample: two option bags that differ (only) in `top_k` and
`repetition_penalty` produce the very same request object at the engine —
the source's request literal (lines 190-196) has no `top_k` or
`repetition_penalty` key, so those options do NOT pass through verbatim. -/
theorem generate_options_not_forwarded_cex :
    ({ top_k := some 5, repetition_penalty := some 2 } : GenerationOptions) ≠ {} ∧
    (generate gbOK sReady "hi"
        { top_k := some 5, repetition_penalty := some 2 }).request =
      (generate gbOK sReady "hi" {}).request :=
  ⟨by decide, rfl⟩

/-- C2 (amended): in the Ready state the message list forwarded to the
engine is exactly the fixed system message followed by the user prompt,
temperature defaults to 0.7 when absent, and `max_tokens`, `top_p` and
`stop` pass through verbatim (absent as omitted); `top_k` and
`repetition_penalty` are never forwarded — the request is invariant under
them. -/
theorem generate_request_shape (beh : GenBehavior) (s : ManagerState)
    (prompt : String) (opts : GenerationOptions)
    (h1 : s.engine = true) (h2 : s.initialized = true) :
    (generate beh s prompt opts).request = some
      { messages :=
          [ { role := Role.system, content := "You are a helpful AI assistant." }
          , { role := Role.user, content := prompt } ]
        temperature := opts.temperature.getD (7 / 10)
        max_tokens := opts.max_tokens
        top_p := opts.top_p
        stop := opts.stop } ∧
    (generate beh s prompt opts).request =
      (generate beh s prompt
        { opts with top_k := none, repetition_penalty := none }).request := by
  rcases beh with ⟨c⟩
  cases c with
  | resolves choices => cases choices <;> simp [generate, h1, h2]
  | thrown e => simp [generate, h1, h2]

theorem generate_request_shape_witness :
    sReady.engine = true ∧ sReady.initialized = true ∧
    (generate gbOK sReady "hi" {}).request = some
      { messages :=
          [ { role := Role.system, content := "You are a helpful AI assistant." }
          , { role := Role.user, content := "hi" } ]
        temperature := (({} : GenerationOptions).temperature).getD (7 / 10)
        max_tokens := ({} : GenerationOptions).max_tokens
        top_p := ({} : GenerationOptions).top_p
        stop := ({} : GenerationOptions).stop } :=
  ⟨rfl, rfl, (generate_request_shape gbOK sReady "hi" {} rfl rfl).1⟩

/-- C10: when the completion resolves but the first choice's message content
is null, `generate()` coerces it to the empty string and returns a success
response with empty text and no error field. -/
theorem generate_null_content_empty_text (beh : GenBehavior) (s : ManagerState)
    (prompt : String) (opts : GenerationOptions) (rest : List (Option String))
    (h1 : s.engine = true) (h2 : s.initialized = true)
    (hc : beh.completion = CompletionResult.resolves (none :: rest)) :
    (generate beh s prompt opts).resp =
      { text := "", status := GenStatus.success, error := none } := by
  simp [generate, h1, h2, hc]

theorem generate_null_content_empty_text_witness :
    sReady.engine = true ∧ sReady.initialized = true ∧
    gbNull.completion = CompletionResult.resolves (none :: []) ∧
    (generate gbNull sReady "hi" {}).resp =
      { text := "", status := GenStatus.success, error := none } :=
  ⟨rfl, rfl, rfl,
    generate_null_content_empty_text gbNull sReady "hi" {} [] rfl rfl rfl⟩

/-- C9: every operation preserves the invariant that a non-null
`SystemInfo.gpuVendor` implies a session was created at least once: probing
either clears `gpuVendor` or leaves it (and the history flag) alone, and the
only write of a non-null vendor happens right after session creation
succeeded. -/
theorem gpuVendor_implies_session_created (env : Env) (beh : EngineBehavior)
    (gb : GenBehavior) (rb : ResetBehavior) (s : ManagerState)
    (prompt : String) (opts : GenerationOptions)
    (h : s.systemInfo.gpuVendor ≠ none → s.everCreated = true) :
    ((checkWebLLMSupport env s).2.systemInfo.gpuVendor ≠ none →
      (checkWebLLMSupport env s).2.everCreated = true) ∧
    ((initializeModel env beh s).state.systemInfo.gpuVendor ≠ none →
      (initializeModel env beh s).state.everCreated = true) ∧
    ((generate gb s prompt opts).state.systemInfo.gpuVendor ≠ none →
      (generate gb s prompt opts).state.everCreated = true) ∧
    ((resetChat rb s).state.systemInfo.gpuVendor ≠ none →
      (resetChat rb s).state.everCreated = true) := by
  refine ⟨checkSupport_inv env s h, ?_, ?_, ?_⟩
  · by_cases hg : (s.initialized && s.engine) = true
    · simpa [initializeModel, hg] using h
    · by_cases hs : s.supported = true
      · cases hcr : beh.createResult with
        | ok =>
            cases hv : beh.vendorResult <;>
              simp [initializeModel, hg, hs, hcr, hv]
        | thrown e => simpa [initializeModel, hg, hs, hcr] using h
      · by_cases hp : (checkWebLLMSupport env s).1 = false
        · simpa [initializeModel, hg, hs, hp] using checkSupport_inv env s h
        · cases hcr : beh.createResult with
          | ok =>
              cases hv : beh.vendorResult <;>
                simp [initializeModel, hg, hs, hp, hcr, hv]
          | thrown e =>
              simpa [initializeModel, hg, hs, hp, hcr] using checkSupport_inv env s h
  · rw [generate_state_eq]
    exact h
  · rw [resetChat_state_eq]
    exact h

theorem gpuVendor_implies_session_created_witness :
    (sReady.systemInfo.gpuVendor ≠ none → sReady.everCreated = true) ∧
    (((checkWebLLMSupport envAll sReady).2.systemInfo.gpuVendor ≠ none →
        (checkWebLLMSupport envAll sReady).2.everCreated = true) ∧
      ((initializeModel envAll behRising sReady).state.systemInfo.gpuVendor ≠ none →
        (initializeModel envAll behRising sReady).state.everCreated = true) ∧
      ((generate gbOK sReady "hi" {}).state.systemInfo.gpuVendor ≠ none →
        (generate gbOK sReady "hi" {}).state.everCreated = true) ∧
      ((resetChat rbOK sReady).state.systemInfo.gpuVendor ≠ none →
        (resetChat rbOK sReady).state.everCreated = true)) :=
  ⟨fun _ => rfl,
    gpuVendor_implies_session_created envAll behRising gbOK rbOK sReady "hi" {}
      (fun _ => rfl)⟩

lemma monotone_relay_aux (last : WebLLMInitProgress)
    (hlast : last.status ≠ InitStatus.initializing) :
    ∀ (evs : List ProgressReport) (p : ℚ) (t : String),
      nondecreasing (p :: evs.map (fun r => r.progress)) = true →
      monotoneWhileInitializing
        ({ progress := p, text := t, status := InitStatus.initializing }
          :: (relayEvents evs ++ [last])) = true := by
  intro evs
  induction evs with
  | nil =>
      intro p t _
      simp [relayEvents, monotoneWhileInitializing, hlast]
  | cons r rs ih =>
      intro p t h
      simp only [List.map_cons, nondecreasing, Bool.and_eq_true,
        decide_eq_true_eq] at h
      have h2 := ih r.progress r.text h.2
      simp only [relayEvents, List.cons_append]
      simp [monotoneWhileInitializing, h.1, h2]

/-- C6 counterexample: within a single `initialize` attempt in which the
engine reports progress 1 and then progress 0, the published
`InitProgress.progress` values decrease while status stays `initializing` —
the relay trusts the engine's values verbatim and never clamps them. -/
theorem progress_monotone_cex :
    monotoneWhileInitializing
      (initializeModel envAll behFalling sSupported).observed = false := by
  decide

/-- C6 (amended): within any single `initialize` attempt, provided the
engine-reported progress values are themselves non-decreasing and start no
lower than the published starting value 0, the successive published
`InitProgress.progress` values are non-decreasing while the status stays
`initializing`. -/
theorem progress_monotone_of_monotone_events (env : Env) (beh : EngineBehavior)
    (s : ManagerState)
    (h : nondecreasing (0 :: beh.events.map (fun r => r.progress)) = true) :
    monotoneWhileInitializing (initializeModel env beh s).observed = true := by
  by_cases hg : (s.initialized && s.engine) = true
  · simp [initializeModel, hg, monotoneWhileInitializing]
  · by_cases hp : (if s.supported then ((true, s) : Bool × ManagerState)
        else checkWebLLMSupport env s).1 = false
    · simp [initializeModel, hg, hp, monotoneWhileInitializing]
    · cases hcr : beh.createResult with
      | ok =>
          have hfin : successProgress.status ≠ InitStatus.initializing := by
            simp [successProgress]
          have haux := monotone_relay_aux successProgress hfin beh.events 0
            "Initializing WebLLM..." h
          simpa [initializeModel, hg, hp, hcr, startingProgress] using haux
      | thrown e =>
          have hfin : (failureProgress e).status ≠ InitStatus.initializing := by
            simp [failureProgress]
          have haux := monotone_relay_aux (failureProgress e) hfin beh.events 0
            "Initializing WebLLM..." h
          simpa [initializeModel, hg, hp, hcr, startingProgress] using haux

theorem progress_monotone_of_monotone_events_witness :
    nondecreasing (0 :: behRising.events.map (fun r => r.progress)) = true ∧
    monotoneWhileInitializing
      (initializeModel envAll behRising sSupported).observed = true :=
  ⟨by decide,
    progress_monotone_of_monotone_events envAll behRising sSupported (by decide)⟩
